import Mathlib

/-!
Shallow embedding of `chirp/wxui/query_sources.py`: the query-source dialog
(validators, query worker thread, progress-event handling, and the cascading
province/county and country/state selectors), together with theorems checking
the module's natural-language specification against it.
-/

namespace QuerySources

/-- A progress event as posted by `QuerySourceDialog.status`:
`QueryThreadEvent(status=status, percent=percent)`.  `status = None` is the
terminal-success sentinel, so it is modelled as `Option String`. -/
structure ProgressEvent where
  status : Option String
  percent : Int
deriving DecidableEq, Repr

/-- `QuerySourceDialog.status(status, percent)`: wraps the pair into the event
posted to the dialog. -/
def status (st : Option String) (percent : Int) : ProgressEvent :=
  ⟨st, percent⟩

/-- `QuerySourceDialog.end`: `self.status(None, 100)`. -/
def dialogEnd : ProgressEvent :=
  status none 100

/-- `QuerySourceDialog.fail(reason)`: `self.status(reason, 100)`. -/
def dialogFail (reason : Option String) : ProgressEvent :=
  status reason 100

/-- Outcome of evaluating `self.radio.do_fetch(self, self.query_dialog.get_params())`
inside `QueryThread.run`: either it returns after emitting some progress events,
or it emits some events and then raises an exception whose `str` is `msg`
(parameter collection by `get_params` raising is the `raises [] msg` case). -/
inductive FetchOutcome where
  | ok (events : List ProgressEvent)
  | raises (events : List ProgressEvent) (msg : String)
deriving DecidableEq, Repr

/-- `QueryThread.run`: runs the fetch in a `try`; `except Exception as e` turns
any exception into `self.send_fail('Failed: %s' % str(e))`, i.e. appends the
event `⟨some ("Failed: " ++ e), 100⟩`.  The function is total: no exception
propagates out of `run`. -/
def queryThreadRun : FetchOutcome → List ProgressEvent
  | .ok events => events
  | .raises events e => events ++ [dialogFail (some ("Failed: " ++ e))]

/-- wxWidgets `wx.ID_OK` stock identifier. -/
def wxID_OK : Int := 5100

/-- The controller-visible state touched by `QuerySourceDialog._got_status`:
the gauge value, the status line, whether the OK (confirm) button is enabled,
and `EndModal`'s argument when the dialog has been ended. -/
structure CtrlState where
  gauge : Int
  statusLabel : String
  okEnabled : Bool
  modalResult : Option Int
deriving DecidableEq, Repr

/-- `QuerySourceDialog._got_status(event)`:
`self.gauge.SetValue(int(event.percent))`; if `event.status is None` then
`self.EndModal(wx.ID_OK)` else `self.statusmsg.SetLabel(event.status)`;
finally, if `event.percent == 100`, re-enable the OK button. -/
def gotStatus (ev : ProgressEvent) (s : CtrlState) : CtrlState :=
  let s1 := { s with gauge := ev.percent }
  let s2 :=
    match ev.status with
    | none => { s1 with modalResult := some wxID_OK }
    | some txt => { s1 with statusLabel := txt }
  if ev.percent == 100 then { s2 with okEnabled := true } else s2

example : queryThreadRun (.raises [] "boom") = [⟨some "Failed: boom", 100⟩] := by decide
example : (gotStatus ⟨none, 100⟩ ⟨0, "", false, none⟩).modalResult = some wxID_OK := by decide
example : (gotStatus ⟨some "x", 100⟩ ⟨0, "", false, none⟩).modalResult = none := by decide
example : (gotStatus ⟨some "x", 100⟩ ⟨0, "", false, none⟩).okEnabled = true := by decide

/-! ## Submit-time validation over the window tree -/

/-- The window tree walked by `QuerySourceDialog._call_validations`.  Each node
carries the boolean result of its own `Validate()` call and its child windows. -/
inductive FieldTree where
  | node (valid : Bool) (children : List FieldTree)

/-- The node's own `Validate()` result. -/
def FieldTree.valid : FieldTree → Bool
  | .node v _ => v

/-- The node's child windows, `GetChildren()`. -/
def FieldTree.children : FieldTree → List FieldTree
  | .node _ cs => cs

/-- The loop body of `QuerySourceDialog._call_validations(parent)` over
`parent.GetChildren()`: `if not child.Validate(): return False`, then
`self._call_validations(child)` — whose result the source discards —
then continue with the remaining children; `return True` at the end. -/
def callValidationsList : List FieldTree → Bool
  | [] => true
  | FieldTree.node v cs :: rest =>
    if !v then false
    else
      let _ := callValidationsList cs
      callValidationsList rest

/-- `QuerySourceDialog._call_validations(self)` at the dialog root. -/
def callValidations (t : FieldTree) : Bool :=
  callValidationsList t.children

/-- Every node of every tree in the list validates, nested children included. -/
def allValidList : List FieldTree → Bool
  | [] => true
  | FieldTree.node v cs :: rest => v && allValidList cs && allValidList rest

/-- Every field below the dialog root validates, nested children included. -/
def allFieldsValid (t : FieldTree) : Bool :=
  allValidList t.children

/-- Dialog state touched by the OK branch of `QuerySourceDialog._button`:
whether the OK button is enabled and how many `QueryThread`s `do_query`
has started. -/
structure SubmitState where
  okEnabled : Bool
  workersStarted : Nat
deriving DecidableEq, Repr

/-- The `wx.ID_OK` branch of `QuerySourceDialog._button`: if
`_call_validations(self)` fails, return with no state change; otherwise
disable the OK button and run `do_query`, which starts one `QueryThread`. -/
def buttonOk (t : FieldTree) (s : SubmitState) : SubmitState :=
  if !callValidations t then s
  else { okEnabled := false, workersStarted := s.workersStarted + 1 }

/-- A tree in which a nested (depth-2) field fails validation while every
field directly below the root validates. -/
def nestedInvalidTree : FieldTree :=
  .node true [.node true [.node false []]]

example : callValidations nestedInvalidTree = true := by
  simp [callValidations, nestedInvalidTree, callValidationsList, FieldTree.children]
example : allFieldsValid nestedInvalidTree = false := by
  simp [allFieldsValid, nestedInvalidTree, allValidList, FieldTree.children]

/-! ## Field validators -/

/-- ASCII decimal digit. -/
def isAsciiDigit (c : Char) : Bool :=
  '0' ≤ c && c ≤ '9'

/-- Digit run to a natural number. -/
def digitsToNat (ds : List Char) : Nat :=
  ds.foldl (fun acc c => acc * 10 + (c.toNat - '0'.toNat)) 0

/-- Modelled from the spec: Python's `float(strvalue)` string conversion used
by `NumberValidator.Validate` ("parse as a floating-point number"), for plain
decimal numerals — optional sign, integer digits, optional fractional digits,
at least one digit in all.  The value is kept exact as a rational; exponent,
`inf`/`nan` and whitespace-padded forms are outside the inputs considered. -/
def parseFloat (s : String) : Option Rat :=
  let (neg, cs) :=
    match s.data with
    | '-' :: rest => (true, rest)
    | '+' :: rest => (false, rest)
    | cs => (false, cs)
  let ip := cs.takeWhile isAsciiDigit
  let cs1 := cs.dropWhile isAsciiDigit
  match cs1 with
  | [] =>
    if ip.isEmpty then none
    else some (if neg then -(digitsToNat ip : Rat) else (digitsToNat ip : Rat))
  | '.' :: rest =>
    let fp := rest.takeWhile isAsciiDigit
    let cs2 := rest.dropWhile isAsciiDigit
    if cs2.isEmpty && !(ip.isEmpty && fp.isEmpty) then
      let v : Rat := mkRat (digitsToNat (ip ++ fp)) (10 ^ fp.length)
      some (if neg then -v else v)
    else none
  | _ => none

example : parseFloat "90" = some 90 := by decide
example : parseFloat "-90.5" = some (-mkRat 181 2) := by decide
example : parseFloat "abc" = none := by decide
example : parseFloat "" = none := by decide
example : parseFloat ".5" = some (mkRat 1 2) := by decide

/-- The validity result a validator returns together with the text of the
`wx.MessageBox` it raised on failure (`none` on success). -/
structure VResult where
  ok : Bool
  message : Option String
deriving DecidableEq, Repr

/-- What a `Validate` call did to its text control:
`untouched` — no colour or focus change (the empty-optional early return, and
every path of `ZipValidator.Validate`, which never touches colour or focus);
`cleared` — background reset to the system window colour (the success path of
`NumberValidator.Validate`);
`marked` — `SetFocus()` and background set to `'pink'` (the failure paths of
`NumberValidator.Validate`). -/
inductive FieldEffect where
  | untouched
  | cleared
  | marked
deriving DecidableEq, Repr

/-- Colours of a text control's background as the validators set them. -/
def windowColour : String := "system-window"

/-- The text control state the validators' side effects act on. -/
structure FieldState where
  bg : String
  focused : Bool
deriving DecidableEq, Repr

/-- Apply a `FieldEffect` to a control: `marked` is
`textctrl.SetFocus(); textctrl.SetBackgroundColour('pink')`; `cleared` is
`textctrl.SetBackgroundColour(wx.SystemSettings.GetColour(wx.SYS_COLOUR_WINDOW))`. -/
def applyEffect : FieldEffect → FieldState → FieldState
  | .untouched, f => f
  | .cleared, f => { f with bg := windowColour }
  | .marked, f => { f with bg := "pink", focused := true }

/-- `NumberValidator._colorchange`, bound to `wx.EVT_TEXT` by `SetWindow`:
on any content change, unconditionally reset the background to the system
window colour — no re-validation. -/
def colorchange (f : FieldState) : FieldState :=
  { f with bg := windowColour }

/-- `NumberValidator.Validate` for a validator with class attributes `THING`,
`MIN`, `MAX`, `OPTIONAL`: empty text with `OPTIONAL` returns `True` at once;
otherwise `float(strvalue)` — a `ValueError` (unparseable) gives the message
`'Invalid %(value)s (use decimal degrees)'`, a failed
`assert v >= self.MIN and v <= self.MAX` gives
`'%(value)s must be between %(min)i and %(max)i'`; both failure paths focus
the control and paint it pink; the success path resets the background. -/
def NumberValidator (thing : String) (mn mx : Int) (optional : Bool)
    (strvalue : String) : VResult × FieldEffect :=
  if strvalue.isEmpty && optional then (⟨true, none⟩, .untouched)
  else
    match parseFloat strvalue with
    | some v =>
      if (mn : Rat) ≤ v && v ≤ (mx : Rat) then (⟨true, none⟩, .cleared)
      else (⟨false, some (thing ++ " must be between " ++ toString mn ++
                          " and " ++ toString mx)⟩, .marked)
    | none =>
      (⟨false, some ("Invalid " ++ thing ++ " (use decimal degrees)")⟩, .marked)

/-- `LatValidator`: `THING = 'Latitude'`, `MIN = -90`, `MAX = 90`. -/
def LatValidator (strvalue : String) : VResult × FieldEffect :=
  NumberValidator "Latitude" (-90) 90 true strvalue

/-- `LonValidator`: `THING = 'Longitude'`, `MIN = -180`, `MAX = 180`. -/
def LonValidator (strvalue : String) : VResult × FieldEffect :=
  NumberValidator "Longitude" (-180) 180 true strvalue

/-- `DistValidator`: `THING = 'Distance'`, `MIN = 0`, `MAX = 7000`. -/
def DistValidator (strvalue : String) : VResult × FieldEffect :=
  NumberValidator "Distance" 0 7000 true strvalue

/-- Modelled from the spec and CPython's documentation of `str.isdigit`: true
for characters with Unicode property `Numeric_Type=Digit` or `Decimal`.
Besides the ASCII digits this includes non-ASCII decimal digits such as the
Arabic-Indic digits U+0660–U+0669 and the superscript digits `¹²³`; the model
covers those ranges, which suffice for the inputs considered. -/
def pyCharIsDigit (c : Char) : Bool :=
  isAsciiDigit c || ('٠' ≤ c && c ≤ '٩') || c == '¹' || c == '²' || c == '³'

/-- Python `strvalue.isdigit()`: non-empty and every character a digit. -/
def pyStrIsDigit (s : String) : Bool :=
  !s.data.isEmpty && s.data.all pyCharIsDigit

/-- `ZipValidator.Validate`: `len(strvalue) == 5 and strvalue.isdigit()`;
on failure only `wx.MessageBox(_('Invalid ZIP code'), ...)` — the control's
colour and focus are never touched, on success or failure. -/
def ZipValidator (strvalue : String) : VResult × FieldEffect :=
  if strvalue.length == 5 && pyStrIsDigit strvalue then (⟨true, none⟩, .untouched)
  else (⟨false, some "Invalid ZIP code"⟩, .untouched)

example : (LatValidator "").1.ok = true := by decide
example : (LatValidator "90").1.ok = true := by decide
example : (LatValidator "90.0001").1.ok = false := by decide
example : (DistValidator "-0.0001").1.ok = false := by decide
example : (ZipValidator "12345").1.ok = true := by decide
example : (ZipValidator "1234a").1.ok = false := by decide
example : (ZipValidator "٠١٢٣٤").1.ok = true := by decide

/-! ## Cascading selectors -/

/-- A `wx.Choice`: its item list and its current (string) selection;
`SetItems` replaces the items and leaves no selection. -/
structure ChoiceState where
  items : List String
  selection : Option String
deriving DecidableEq, Repr

/-- `wx.Choice.SetStringSelection(s)`: selects `s` when it is among the
items, otherwise leaves the selection unchanged. -/
def setStringSelection (s : String) (c : ChoiceState) : ChoiceState :=
  if s ∈ c.items then { c with selection := some s } else c

/-- `RepeaterBookQueryDialog._state_selected`: look up
`repeaterbook.STATES[country]` (the rows of the country→states relation, in
table order), `self._state.SetItems(states)` — which clears the selection —
then `prev = CONF.get('state', 'repeaterbook')`; only
`if prev and prev in states` is `SetStringSelection(prev)` called.
`statesTable` stands for the external `repeaterbook.STATES` mapping and
`confState` for the persisted `state` entry (`None` when unset). -/
def stateSelected (statesTable : String → List String)
    (confState : Option String) (country : String) : ChoiceState :=
  let states := statesTable country
  let st : ChoiceState := { items := states, selection := none }
  match confState with
  | some prev => if prev ≠ "" && decide (prev ∈ states) then
      setStringSelection prev st
    else st
  | none => st

/-- One row of the external `radioreference.CA_COUNTIES` table:
`(code, province, county id, county name)` — indexed in the source as
`x[0], x[1], x[2], x[3]`. -/
structure CountyRow where
  code : String
  prov : String
  cid : Int
  county : String
deriving DecidableEq, Repr

/-- The `RRQueryDialog` state touched by the province/county handlers: the
county `wx.Choice` items, `self._ca_county_id`, and the persisted
`province` and `county` config integers. -/
structure RRState where
  countyItems : List String
  caCountyId : Int
  confProvince : Option Int
  confCounty : Option Int
deriving DecidableEq, Repr

/-- The loop of `RRQueryDialog._selected_county`: starting from
`self._ca_county_id = 0`, scan `CA_COUNTIES` for the first row whose county
name matches and take its id (0 when no row matches). -/
def selectedCountyId (caCounties : List CountyRow)
    (chosencounty : String) : Int :=
  match caCounties.find? (fun r => r.county == chosencounty) with
  | some r => r.cid
  | none => 0

/-- `RRQueryDialog._selected_county(chosencounty)`: compute the id as above,
then `CONF.set_int('county', self._ca_county_id)`. -/
def selectedCounty (caCounties : List CountyRow) (chosencounty : String)
    (s : RRState) : RRState :=
  let cid := selectedCountyId caCounties chosencounty
  { s with caCountyId := cid, confCounty := some cid }

/-- `RRQueryDialog._selected_province(chosenprov)`:
persist the id of the matching province (first match in `CA_PROVINCES`, if
any); `self._countychoice.Clear()`; append `x[3]` for every `CA_COUNTIES` row
with `x[1] == chosenprov`, in table order; then
`self._selected_county(self._countychoice.GetItems()[0])` — when the filtered
list is empty this subscript raises `IndexError`, modelled as `none`. -/
def selectedProvince (caProvinces : List (String × Int))
    (caCounties : List CountyRow) (chosenprov : String)
    (s : RRState) : Option RRState :=
  let s1 :=
    match caProvinces.find? (fun p => p.1 == chosenprov) with
    | some p => { s with confProvince := some p.2 }
    | none => s
  let items := (caCounties.filter (fun x => x.prov == chosenprov)).map
    (fun x => x.county)
  match items with
  | [] => none
  | first :: _ =>
    some (selectedCounty caCounties first { s1 with countyItems := items })

/-! ## Concrete relation tables used as inputs below -/

/-- An example `radioreference.CA_PROVINCES` table. -/
def caProvincesEx : List (String × Int) := [("BC", 1), ("ON", 2)]

/-- An example `radioreference.CA_COUNTIES` table: two counties for BC
("Alpha", id 10, first; "Beta", id 20, second) and one for ON. -/
def caCountiesEx : List CountyRow :=
  [⟨"x", "BC", 10, "Alpha"⟩, ⟨"x", "BC", 20, "Beta"⟩, ⟨"x", "ON", 30, "Gamma"⟩]

/-- An `RRQueryDialog` state whose persisted county is 20 — "Beta". -/
def rrInit : RRState := ⟨[], 0, none, some 20⟩

/-! ## Theorems -/

/-- C2: when `do_fetch` (or `get_params`) raises an exception with text `e`,
`QueryThread.run` catches it and appends exactly one terminal event whose
percent is 100 and whose status is the human-readable reason
`"Failed: " ++ e`, which contains the exception text; `queryThreadRun` is a
total function, so no exception propagates out of the worker's run. -/
theorem c2_worker_seals_exceptions (evs : List ProgressEvent) (e : String) :
    queryThreadRun (.raises evs e) =
      evs ++ [⟨some ("Failed: " ++ e), 100⟩] ∧
    ∃ p q, "Failed: " ++ e = p ++ e ++ q := by
  refine ⟨rfl, "Failed: ", "", ?_⟩
  simp

/-- C3: the worker's success signal `QuerySourceDialog.end` emits exactly
`{status: none, percent: 100}`, and `_got_status` on any event whose status
is `none` sets the gauge to the event's percent and ends the dialog with the
accepted result `wx.ID_OK`. -/
theorem c3_success_event_closes_accepted (ev : ProgressEvent) (s : CtrlState)
    (h : ev.status = none) :
    dialogEnd = ⟨none, 100⟩ ∧
    (gotStatus ev s).gauge = ev.percent ∧
    (gotStatus ev s).modalResult = some wxID_OK := by
  refine ⟨rfl, ?_, ?_⟩ <;>
    · unfold gotStatus
      rw [h]
      by_cases hp : ev.percent == 100 <;> simp [hp]

/-- Witness for C3 at the concrete success event `⟨none, 100⟩`. -/
theorem c3_success_event_closes_accepted_witness :
    dialogEnd = ⟨none, 100⟩ ∧
    (gotStatus ⟨none, 100⟩ ⟨0, "", false, none⟩).gauge = 100 ∧
    (gotStatus ⟨none, 100⟩ ⟨0, "", false, none⟩).modalResult = some wxID_OK :=
  c3_success_event_closes_accepted ⟨none, 100⟩ ⟨0, "", false, none⟩ rfl

/-- C4: `_got_status` on an event with a non-none status `r` and percent 100
sets the status line to `r`, re-enables the OK button, and leaves the modal
result unchanged — the dialog is not closed by a terminal-failure event. -/
theorem c4_failure_event_keeps_dialog_open (ev : ProgressEvent)
    (s : CtrlState) (r : String) (hs : ev.status = some r)
    (hp : ev.percent = 100) :
    (gotStatus ev s).statusLabel = r ∧
    (gotStatus ev s).okEnabled = true ∧
    (gotStatus ev s).modalResult = s.modalResult := by
  unfold gotStatus
  rw [hs, hp]
  simp

/-- Witness for C4 at the concrete failure event `⟨some "no luck", 100⟩`. -/
theorem c4_failure_event_keeps_dialog_open_witness :
    (gotStatus ⟨some "no luck", 100⟩ ⟨0, "", false, none⟩).statusLabel =
      "no luck" ∧
    (gotStatus ⟨some "no luck", 100⟩ ⟨0, "", false, none⟩).okEnabled = true ∧
    (gotStatus ⟨some "no luck", 100⟩ ⟨0, "", false, none⟩).modalResult =
      (⟨0, "", false, none⟩ : CtrlState).modalResult :=
  c4_failure_event_keeps_dialog_open ⟨some "no luck", 100⟩
    ⟨0, "", false, none⟩ "no luck" rfl rfl

/-- C10: terminal classification depends only on whether the status is none:
`fail(None)` builds the same event as `end`, and `_got_status` on it closes
the dialog with the accepted result; an empty-string reason takes the failure
branch (label set, modal result unchanged); and every event with percent 100
re-enables the OK button, success or failure. -/
theorem c10_classification_by_none_status :
    dialogFail none = dialogEnd ∧
    (∀ s : CtrlState,
      (gotStatus (dialogFail none) s).modalResult = some wxID_OK) ∧
    (∀ s : CtrlState,
      (gotStatus ⟨some "", 100⟩ s).modalResult = s.modalResult ∧
      (gotStatus ⟨some "", 100⟩ s).statusLabel = "") ∧
    (∀ (ev : ProgressEvent) (s : CtrlState), ev.percent = 100 →
      (gotStatus ev s).okEnabled = true) := by
  refine ⟨rfl, fun s => rfl, fun s => ⟨rfl, rfl⟩, fun ev s hp => ?_⟩
  unfold gotStatus
  rw [hp]
  cases h : ev.status <;> simp

/-- Witness for C10 at the concrete event `⟨some "oops", 100⟩`. -/
theorem c10_classification_by_none_status_witness :
    (gotStatus ⟨some "oops", 100⟩ ⟨0, "", false, none⟩).okEnabled = true :=
  c10_classification_by_none_status.2.2.2 ⟨some "oops", 100⟩
    ⟨0, "", false, none⟩ rfl

/-- C1: on the failing input — a window tree whose direct children all pass
`Validate()` but with a failing field nested two levels below the dialog (as
the ZIP control's panel sits below the notebook in `RRQueryDialog`) — the
claim says the submit aborts with no state change, but `_call_validations`
discards the result of its recursive call, returns `True`, and the OK branch
of `_button` disables the confirm control and starts a worker anyway. -/
theorem c1_nested_failure_starts_worker :
    allFieldsValid nestedInvalidTree = false ∧
    callValidations nestedInvalidTree = true ∧
    buttonOk nestedInvalidTree ⟨true, 0⟩ = ⟨false, 1⟩ := by
  refine ⟨?_, ?_, ?_⟩ <;>
    simp [allFieldsValid, callValidations, buttonOk, nestedInvalidTree,
          allValidList, callValidationsList, FieldTree.children]

/-- C5 counterexample: the claim requires every failure message to name the
field, the allowed bounds, and the offending text; the unparseable-input
message for Latitude at the concrete input `"abc"` is
`"Invalid Latitude (use decimal degrees)"`, which contains neither the
offending text `"abc"` nor the bound text `"-90"`. -/
theorem c5_message_omits_offending_text :
    (LatValidator "abc").1 =
      ⟨false, some "Invalid Latitude (use decimal degrees)"⟩ ∧
    ¬ "abc".data <:+: "Invalid Latitude (use decimal degrees)".data ∧
    ¬ "-90".data <:+: "Invalid Latitude (use decimal degrees)".data := by
  decide

/-- C5 (amended): the empty string validates on an optional field; a
non-empty input that parses as a number `v` is valid iff `MIN ≤ v ≤ MAX`
inclusive, and out of range produces the message naming the field and both
bounds; a non-empty unparseable input is invalid with the message naming only
the field; and the boundary values behave as the spec lists for Latitude
`[-90, 90]`, Longitude `[-180, 180]` and Distance `[0, 7000]`.  No failure
message contains the offending text. -/
theorem c5_range_validators (thing : String) (mn mx : Int) (s : String)
    (v : Rat) :
    (NumberValidator thing mn mx true "").1 = ⟨true, none⟩ ∧
    (s.isEmpty = false → parseFloat s = some v →
      ((NumberValidator thing mn mx true s).1.ok = true ↔
        ((mn : Rat) ≤ v ∧ v ≤ (mx : Rat))) ∧
      (¬((mn : Rat) ≤ v ∧ v ≤ (mx : Rat)) →
        (NumberValidator thing mn mx true s).1.message =
          some (thing ++ " must be between " ++ toString mn ++
                " and " ++ toString mx))) ∧
    (s.isEmpty = false → parseFloat s = none →
      (NumberValidator thing mn mx true s).1 =
        ⟨false, some ("Invalid " ++ thing ++ " (use decimal degrees)")⟩) ∧
    ((LatValidator "90").1.ok = true ∧ (LatValidator "-90").1.ok = true ∧
     (LatValidator "90.0001").1.ok = false ∧
     (LatValidator "-90.0001").1.ok = false ∧
     (LonValidator "180").1.ok = true ∧ (LonValidator "-180").1.ok = true ∧
     (LonValidator "180.0001").1.ok = false ∧
     (DistValidator "0").1.ok = true ∧ (DistValidator "7000").1.ok = true ∧
     (DistValidator "7000.0001").1.ok = false ∧
     (DistValidator "-0.0001").1.ok = false) := by
  refine ⟨rfl, fun hne hp => ?_, fun hne hp => ?_, ?_⟩
  · constructor
    · by_cases hr : (mn : Rat) ≤ v ∧ v ≤ (mx : Rat) <;>
        simp [NumberValidator, hne, hp, hr]
    · intro hr
      simp [NumberValidator, hne, hp, hr]
  · simp [NumberValidator, hne, hp]
  · decide

/-- Witness for C5 (amended) at Latitude with the concrete in-range input
`"45"`. -/
theorem c5_range_validators_witness :
    (NumberValidator "Latitude" (-90) 90 true "45").1.ok = true :=
  ((c5_range_validators "Latitude" (-90) 90 "45" 45).2.1 (by decide)
    (by decide)).1.mpr (by decide)

/-- C6 counterexample: the claim says any 5-character string containing a
character that is not an ASCII digit is invalid, but the five Arabic-Indic
digits `"٠١٢٣٤"` — none of which is an ASCII digit — satisfy
`len(strvalue) == 5 and strvalue.isdigit()` and are accepted. -/
theorem c6_nonascii_digits_accepted :
    (ZipValidator "٠١٢٣٤").1.ok = true ∧
    ("٠١٢٣٤" : String).length = 5 ∧
    "٠١٢٣٤".data.all isAsciiDigit = false := by
  decide

/-- C6 (amended): the postal-code validator accepts a string iff it has
exactly 5 characters and every character is a digit in Python's `str.isdigit`
sense — which includes non-ASCII Unicode digits; `"12345"` is valid while
`"1234"`, `"123456"` and `"1234a"` are invalid. -/
theorem c6_zip_five_digits (s : String) :
    ((ZipValidator s).1.ok = true ↔
      (s.length = 5 ∧ s.data.all pyCharIsDigit = true)) ∧
    (ZipValidator "12345").1.ok = true ∧
    (ZipValidator "1234").1.ok = false ∧
    (ZipValidator "123456").1.ok = false ∧
    (ZipValidator "1234a").1.ok = false := by
  refine ⟨?_, by decide, by decide, by decide, by decide⟩
  unfold ZipValidator pyStrIsDigit
  by_cases h5 : s.length = 5
  · have hne : s.data.isEmpty = false := by
      cases hd : s.data with
      | nil =>
        exfalso
        have : s.length = 0 := by simp [String.length, hd]
        omega
      | cons a l => simp
    cases hall : s.data.all pyCharIsDigit <;> simp [h5, hne, hall]
  · simp [h5]

/-- C7 counterexample: with the example tables, the persisted prior county is
id 20 ("Beta"), "Beta" is among the new choices for province "BC", yet
`_selected_province` persists the first entry's id 10 ("Alpha") — the
persisted prior selection is ignored on a parent change. -/
theorem c7_prior_county_ignored :
    selectedProvince caProvincesEx caCountiesEx "BC" rrInit =
      some ⟨["Alpha", "Beta"], 10, some 1, some 10⟩ ∧
    rrInit.confCounty = some 20 ∧
    (⟨"x", "BC", 20, "Beta"⟩ : CountyRow) ∈ caCountiesEx ∧
    "Beta" ∈ ["Alpha", "Beta"] := by
  decide

/-- C7 (amended): on a parent change the child list becomes exactly the
relation rows whose parent key equals the new parent value, in table order.
The default differs per dialog: `_state_selected` keeps the persisted prior
state only when it is non-empty and among the new choices, and otherwise
leaves the selection unset (no first-entry default); `_selected_province`
always takes the first entry of the new county list and persists its id,
ignoring any persisted prior selection. -/
theorem c7_child_list_and_default
    (statesTable : String → List String) (confState : Option String)
    (country : String) (caProvinces : List (String × Int))
    (caCounties : List CountyRow) (chosenprov : String) (s : RRState)
    (first : String) (rest : List String) :
    ((stateSelected statesTable confState country).items =
        statesTable country ∧
     (stateSelected statesTable confState country).selection =
       (match confState with
        | some prev =>
          if prev ≠ "" ∧ prev ∈ statesTable country then some prev else none
        | none => none)) ∧
    ((caCounties.filter (fun x => x.prov == chosenprov)).map
        (fun x => x.county) = first :: rest →
      ∃ st, selectedProvince caProvinces caCounties chosenprov s = some st ∧
        st.countyItems = first :: rest ∧
        st.caCountyId = selectedCountyId caCounties first ∧
        st.confCounty = some (selectedCountyId caCounties first)) := by
  constructor
  · cases confState with
    | none => exact ⟨rfl, rfl⟩
    | some prev =>
      by_cases hP : prev ≠ "" ∧ prev ∈ statesTable country
      · simp [stateSelected, setStringSelection, hP, hP.1, hP.2]
      · rw [not_and_or] at hP
        rcases hP with hP | hP <;>
          simp_all [stateSelected, setStringSelection]
  · intro hlist
    simp only [selectedProvince, selectedCounty, hlist]
    exact ⟨_, rfl, rfl, rfl, rfl⟩

/-- Witness for C7 (amended) at the example tables, province "BC". -/
theorem c7_child_list_and_default_witness :
    ∃ st, selectedProvince caProvincesEx caCountiesEx "BC" rrInit = some st ∧
      st.countyItems = ["Alpha", "Beta"] ∧
      st.caCountyId = selectedCountyId caCountiesEx "Alpha" ∧
      st.confCounty = some (selectedCountyId caCountiesEx "Alpha") :=
  (c7_child_list_and_default (fun _ => []) none "" caProvincesEx caCountiesEx
    "BC" rrInit "Alpha" ["Beta"]).2 (by decide)

/-- C8: on the failing input — a chosen province with zero matching county
rows — `_selected_province` evaluates `self._countychoice.GetItems()[0]` on
an empty list and raises `IndexError` (modelled as `none`); it does not
degrade to an empty/no-op state as the claim requires. -/
theorem c8_empty_child_list_faults :
    selectedProvince caProvincesEx caCountiesEx "SK" rrInit = none := by
  decide

/-- C9 counterexample: the claim covers every field validator, but
`ZipValidator.Validate` at the failing concrete input `"1234"` neither marks
the field nor moves focus — its effect is `untouched` and the field state is
unchanged. -/
theorem c9_zip_failure_leaves_field_unmarked :
    (ZipValidator "1234").1.ok = false ∧
    (ZipValidator "1234").2 = FieldEffect.untouched ∧
    applyEffect (ZipValidator "1234").2 ⟨windowColour, false⟩ =
      ⟨windowColour, false⟩ := by
  decide

/-- C9 (amended): every numeric-range validator marks the field on failure —
the effect is `marked`, which paints the background pink and moves focus —
and the mark is cleared by `_colorchange` on the next content change
unconditionally: `colorchange` repaints the window colour for every field
state, with no re-validation.  The postal-code validator shows only a message
box and never marks or focuses the field. -/
theorem c9_mark_on_failure_clear_on_edit (thing : String) (mn mx : Int)
    (opt : Bool) (s : String) (f : FieldState) :
    ((NumberValidator thing mn mx opt s).1.ok = false →
      (NumberValidator thing mn mx opt s).2 = FieldEffect.marked ∧
      (applyEffect FieldEffect.marked f).bg = "pink" ∧
      (applyEffect FieldEffect.marked f).focused = true) ∧
    (∀ g : FieldState, (colorchange g).bg = windowColour) ∧
    (∀ z : String, (ZipValidator z).2 = FieldEffect.untouched) := by
  refine ⟨fun hfail => ⟨?_, rfl, rfl⟩, fun g => rfl, fun z => ?_⟩
  · unfold NumberValidator at hfail ⊢
    by_cases he : (s.isEmpty && opt) = true
    · simp [he] at hfail
    · cases hp : parseFloat s with
      | none => simp [he, hp]
      | some v =>
        by_cases hr : (mn : Rat) ≤ v ∧ v ≤ (mx : Rat)
        · simp [he, hp, hr] at hfail
        · simp [he, hp, hr]
  · unfold ZipValidator
    split <;> rfl

/-- Witness for C9 (amended) at Latitude with the failing input `"95"`. -/
theorem c9_mark_on_failure_clear_on_edit_witness :
    (NumberValidator "Latitude" (-90) 90 true "95").2 = FieldEffect.marked ∧
    (applyEffect FieldEffect.marked
      (⟨windowColour, false⟩ : FieldState)).bg = "pink" ∧
    (applyEffect FieldEffect.marked
      (⟨windowColour, false⟩ : FieldState)).focused = true :=
  (c9_mark_on_failure_clear_on_edit "Latitude" (-90) 90 true "95"
    ⟨windowColour, false⟩).1 (by decide)

end QuerySources
